import Mathlib

/-!
Verification of the caselaw-search hybrid retrieval orchestrator.

This file gives a shallow embedding of the Python backend of the
`caselaw-search` repository: the search endpoint
(`backend/app/api/endpoints/search.py`), the cache service
(`backend/services/cache_service.py`), the web search service
(`backend/services/web_search_service.py`) and the answer synthesis
adapter (`backend/services/llm_service.py`).  External collaborators
(Redis, Qdrant, Tavily, the LLM provider, the SQL database) are modelled
as oracle functions; Python floats are modelled as exact rationals;
Python strings are modelled as Lean strings operated on as lists of
characters.  Each definition mirrors the corresponding Python function.
-/

namespace CaselawSearch

/-! ## Python string primitives

Python string operations used by the backend: `str.lower`, `str.strip`,
the substring test `needle in hay`, `str.replace`, and slicing `s[:n]`.
All operate on the character (code point) level, matching Python
semantics for the ASCII inputs handled by this service.
-/

/-- Lowercase a single character, as Python `str.lower` does on ASCII. -/
def lowerChar (c : Char) : Char :=
  if 65 ≤ c.toNat ∧ c.toNat ≤ 90 then Char.ofNat (c.toNat + 32) else c

/-- Whitespace characters removed by Python `str.strip()` (ASCII range). -/
def isPySpace (c : Char) : Bool :=
  c.toNat = 32 || c.toNat = 9 || c.toNat = 10 || c.toNat = 13 ||
    c.toNat = 11 || c.toNat = 12

/-- Python `str.strip()` on the character list: remove leading and
trailing whitespace. -/
def pyStrip (l : List Char) : List Char :=
  List.rdropWhile isPySpace (List.dropWhile isPySpace l)

/-- Test whether `needle` is an initial segment of `hay`. -/
def leadsWith : List Char → List Char → Bool
  | [], _ => true
  | _ :: _, [] => false
  | a :: as, b :: bs => a == b && leadsWith as bs

/-- Python substring test `needle in hay` on character lists. -/
def hasSub (needle : List Char) : List Char → Bool
  | [] => needle.isEmpty
  | c :: t => leadsWith needle (c :: t) || hasSub needle t

/-- Python substring test `needle in hay` on strings. -/
def pyIn (needle hay : String) : Bool :=
  hasSub needle.toList hay.toList

/-- Python `s.replace("co.", "company")`: scan left to right, replacing
each non-overlapping occurrence. -/
def replaceCo : List Char → List Char
  | 'c' :: 'o' :: '.' :: t => 'c' :: 'o' :: 'm' :: 'p' :: 'a' :: 'n' :: 'y' :: replaceCo t
  | c :: t => c :: replaceCo t
  | [] => []

/-- Python `s.replace("corp.", "corporation")`: scan left to right,
replacing each non-overlapping occurrence. -/
def replaceCorp : List Char → List Char
  | 'c' :: 'o' :: 'r' :: 'p' :: '.' :: t =>
      'c' :: 'o' :: 'r' :: 'p' :: 'o' :: 'r' :: 'a' :: 't' :: 'i' :: 'o' :: 'n' :: replaceCorp t
  | c :: t => c :: replaceCorp t
  | [] => []

/-- Python `s.lower()` on strings. -/
def lowerString (s : String) : String :=
  String.mk (s.toList.map lowerChar)

/-- Python slice `s[:n]` on strings. -/
def pySlice (s : String) (n : Nat) : String :=
  String.mk (s.toList.take n)

/-! ### Lemmas about the character primitives -/

theorem toNat_ofNat_of_small {n : Nat} (h : n < 0xd800) : (Char.ofNat n).toNat = n := by
  have hv : n.isValidChar := Or.inl h
  simp [Char.ofNat, hv, Char.ofNatAux, Char.toNat, UInt32.toNat, BitVec.toNat_ofNatLt]

theorem lowerChar_toNat_of_upper {c : Char} (h : 65 ≤ c.toNat ∧ c.toNat ≤ 90) :
    (lowerChar c).toNat = c.toNat + 32 := by
  rw [lowerChar, if_pos h]
  exact toNat_ofNat_of_small (by omega)

theorem lowerChar_of_not_upper {c : Char} (h : ¬(65 ≤ c.toNat ∧ c.toNat ≤ 90)) :
    lowerChar c = c := by
  rw [lowerChar, if_neg h]

theorem lowerChar_idem (c : Char) : lowerChar (lowerChar c) = lowerChar c := by
  by_cases h : 65 ≤ c.toNat ∧ c.toNat ≤ 90
  · have ht := lowerChar_toNat_of_upper h
    rw [lowerChar, ht, if_neg (by omega)]
  · rw [lowerChar_of_not_upper h, lowerChar_of_not_upper h]

theorem isPySpace_lowerChar (c : Char) : isPySpace (lowerChar c) = isPySpace c := by
  by_cases h : 65 ≤ c.toNat ∧ c.toNat ≤ 90
  · have ht := lowerChar_toNat_of_upper h
    have h1 : isPySpace (lowerChar c) = false := by
      simp only [isPySpace, ht, Bool.or_eq_false_iff, decide_eq_false_iff_not]
      omega
    have h2 : isPySpace c = false := by
      simp only [isPySpace, Bool.or_eq_false_iff, decide_eq_false_iff_not]
      omega
    rw [h1, h2]
  · rw [lowerChar_of_not_upper h]

example : lowerString "Miranda Rights" = "miranda rights" := by decide
example : pyStrip "  ab c  ".toList = "ab c".toList := by decide
example : pyIn "v. Jones" "smith v. jones" = false := by decide
example : pyIn "v. jones" "smith v. jones" = true := by decide
example : replaceCorp (replaceCo "smith co. v. jones corp.".toList)
    = "smith company v. jones corporation".toList := by decide

/-! ## Query signal extractor (`search.py`, module level)

`extract_years` applies the regex `\b(1[8-9]\d{2}|20\d{2})\b` via
`findall`: a left-to-right scan for four-digit year tokens delimited by
word boundaries, continuing after the end of each match.
`extract_case_reference` applies
`([A-Za-z][\w&.,' -]+ v\. [A-Za-z][\w&.,' -]+)` (IGNORECASE) via
`search`: the leftmost match wins, the first character class is greedy
with backtracking, and the result is stripped.
-/

/-- Word character for the regex word boundary: `[A-Za-z0-9_]`. -/
def isWordChar (c : Char) : Bool :=
  c.isAlphanum || c = '_'

/-- Read a four-character token matching `1[8-9]\d{2}|20\d{2}` as a year. -/
def yearDigits (a b d e : Char) : Option Nat :=
  if a = '1' ∧ (b = '8' ∨ b = '9') ∧ d.isDigit ∧ e.isDigit then
    some (1000 + (b.toNat - 48) * 100 + (d.toNat - 48) * 10 + (e.toNat - 48))
  else if a = '2' ∧ b = '0' ∧ d.isDigit ∧ e.isDigit then
    some (2000 + (d.toNat - 48) * 10 + (e.toNat - 48))
  else none

/-- Word boundary after a match: end of input or a non-word character. -/
def boundaryAfter (l : List Char) : Bool :=
  match l with
  | [] => true
  | c :: _ => !isWordChar c

/-- Regex `findall` scan for year tokens.  `prevIsWord` records whether
the character before the current position is a word character (false at
the start of the string). -/
def scanYears (prevIsWord : Bool) : List Char → List Nat
  | a :: b :: d :: e :: rest =>
    match yearDigits a b d e with
    | some y =>
      if !prevIsWord && boundaryAfter rest then
        y :: scanYears true rest
      else
        scanYears (isWordChar a) (b :: d :: e :: rest)
    | none => scanYears (isWordChar a) (b :: d :: e :: rest)
  | a :: rest => scanYears (isWordChar a) rest
  | [] => []

/-- Python `extract_years(text)`. -/
def extractYears (text : String) : List Nat :=
  scanYears false text.toList

/-- Character class `[\w&.,' -]` of the case-reference regex. -/
def clsChar (c : Char) : Bool :=
  isWordChar c || c = '&' || c = '.' || c = ',' || c.toNat = 39 || c = ' ' || c = '-'

/-- Length of the maximal prefix of characters in the class. -/
def clsRun : List Char → Nat
  | [] => 0
  | c :: t => if clsChar c then clsRun t + 1 else 0

/-- Match the fixed remainder of the reference pattern: the literal
`" v. "` (case-insensitive `v`), a letter, then a greedy non-empty run of
class characters.  Returns the matched characters. -/
def matchTail (t : List Char) : Option (List Char) :=
  match t with
  | s1 :: v :: dot :: s2 :: d :: u =>
    if s1 = ' ' ∧ (v = 'v' ∨ v = 'V') ∧ dot = '.' ∧ s2 = ' ' ∧ d.isAlpha ∧ 1 ≤ clsRun u then
      some (s1 :: v :: dot :: s2 :: d :: u.take (clsRun u))
    else none
  | _ => none

/-- Greedy backtracking over the first `[\w&.,' -]+` segment: try the
longest segment length first, shrinking until the tail matches. -/
def tryFirstSeg (c : Char) (rest : List Char) : Nat → Option (List Char)
  | 0 => none
  | k + 1 =>
    match matchTail (rest.drop (k + 1)) with
    | some m => some (c :: (rest.take (k + 1) ++ m))
    | none => tryFirstSeg c rest k

/-- Regex `search`: try each start position from the left; at each start
the first character must be a letter. -/
def searchRef : List Char → Option (List Char)
  | [] => none
  | c :: rest =>
    if c.isAlpha then
      match tryFirstSeg c rest (clsRun rest) with
      | some m => some m
      | none => searchRef rest
    else searchRef rest

/-- Python `extract_case_reference(text)`: first regex match, stripped. -/
def extractCaseReference (text : String) : Option String :=
  (searchRef text.toList).map (fun l => String.mk (pyStrip l))

example : extractYears "from 2019 to 2023" = [2019, 2023] := by decide
example : extractYears "in 12023 or 186x" = [] := by decide
example : extractYears "1799 1800 2099 2100" = [1800, 2099] := by decide
example : extractCaseReference "What did Roe v. Wade hold?" = some "What did Roe v. Wade hold" := by
  decide
example : extractCaseReference "no citation here" = none := by decide
example : extractCaseReference "Miranda V. Arizona" = some "Miranda V. Arizona" := by decide
example : extractYears "2020-2021" = [2020, 2021] := by decide
example : extractYears "a2020 2020a 2020_ (2020)" = [2020] := by decide
example : extractCaseReference "A v. B" = none := by decide
example : extractCaseReference "Roe v. Wade and Doe v. Bolton"
    = some "Roe v. Wade and Doe v. Bolton" := by decide
example : extractCaseReference " Marbury v. Madison " = some "Marbury v. Madison" := by decide

/-! ## Data model

Records mirroring the dictionaries and ORM rows moved through the
pipeline.  Relevance scores (Python floats) are modelled as exact
rationals.  `Option String` models nullable text columns; Python
truthiness of a string field is `s` being nonempty (and, for optional
fields, present).
-/

/-- Row of the `cases` table read by the orchestrator
(`models/case.py`).  `holding`, `facts`, `reasoning` and
`full_text_url` are nullable columns. -/
structure CaseRecord where
  id : Nat
  case_name : String
  citation : String
  court : String
  year : Nat
  facts : Option String
  holding : Option String
  reasoning : Option String
  full_text_url : Option String
deriving DecidableEq

/-- One hit returned by the similarity oracle
(`vector_search_service.search_similar_cases`): the payload field
`case_id` may be missing. -/
structure VectorHit where
  case_id : Option Nat
  score : ℚ
deriving DecidableEq

/-- Entry of the `case_sources` list built in `search_cases`. -/
structure CaseSource where
  case_id : Nat
  case_name : String
  citation : String
  court : String
  year : Nat
  facts : Option String
  holding : Option String
  reasoning : Option String
  score : ℚ
  url : String
deriving DecidableEq

/-- One formatted web search result
(`web_search_service.search_legal_content`). -/
structure WebSource where
  title : String
  url : String
  content : String
  score : ℚ
  published_date : Option String
deriving DecidableEq

/-- Entry of `citations_used` computed by
`llm_service.generate_legal_answer`. -/
structure CitationUsed where
  case_name : String
  citation : String
  case_id : Nat
deriving DecidableEq

/-- Result dictionary of `llm_service.generate_legal_answer`. -/
structure LLMResult where
  answer : String
  citations_used : List CitationUsed
  sources_count : Nat
deriving DecidableEq

/-- Entry of the `sources` list of the response (`SearchResult` model). -/
structure SearchResult where
  case_name : String
  citation : String
  court : String
  year : Nat
  summary : String
  relevance_score : ℚ
  url : String
deriving DecidableEq

/-- Response model of the search endpoint (`SearchResponse`). -/
structure SearchResponse where
  answer : String
  sources : List SearchResult
  mode : String
deriving DecidableEq

/-- Request model of the search endpoint (`SearchQuery`): a plain
pydantic model with defaults and no validators. -/
structure SearchQuery where
  query : String
  mode : String := "hybrid"
  limit : Int := 10
deriving DecidableEq

/-! ## Response cache (`cache_service.py`)

The Redis backend is modelled as an oracle returning `Except`: an
`Except.error` models a raised exception (connection failure).  The
serialisation through JSON is modelled as the identity on
`SearchResponse` values.  TTL expiry is outside the model (it is the
backend's clock); `_generate_cache_key` and the error handling of
`get_cached_response` / `cache_response` are modelled exactly.
-/

/-- Python `_generate_cache_key`: normalise the query by lowercasing and
stripping surrounding whitespace, then prefix with the mode. -/
def normalizeQuery (query : String) : String :=
  String.mk (pyStrip (query.toList.map lowerChar))

/-- Cache key `"search:{mode}:{normalized_query}"`. -/
def generateCacheKey (query : String) (mode : String) : String :=
  "search:" ++ mode ++ ":" ++ normalizeQuery query

/-- Python `get_cached_response`: on any backend error, swallow the
exception, log it, and report a miss.  Returns the value and the log
lines emitted. -/
def getCachedResponse (backendGet : String → Except String (Option SearchResponse))
    (query : String) (mode : String) : Option SearchResponse × List String :=
  match backendGet (generateCacheKey query mode) with
  | .ok d => (d, [])
  | .error e => (none, ["Error retrieving from cache: " ++ e])

/-- Python `cache_response`: on any backend error, swallow the
exception, log it, and return `False`.  Returns the success flag and the
log lines emitted. -/
def cacheResponse (backendSet : String → SearchResponse → Except String Unit)
    (query : String) (response : SearchResponse) (mode : String) : Bool × List String :=
  match backendSet (generateCacheKey query mode) response with
  | .ok _ => (true, [])
  | .error e => (false, ["Error caching response: " ++ e])

/-! ## Web evidence fetcher (`web_search_service.py`)

The Tavily call (`_perform_search_with_fallback`, including its internal
basic-depth retry) is modelled as an oracle from the query and
`max_results` to either the formatted results plus the optional answer,
or a raised `RequestException` carried as `Except.error`.
-/

/-- Result dictionary of `search_legal_content`. -/
structure WebSearchResult where
  results : List WebSource
  answer : Option String
  query : String
  error : Option String
deriving DecidableEq

/-- Python `search_legal_content`: a missing API key or a raised
`RequestException` degrades to an empty result list with the error
recorded; it never raises. -/
def searchLegalContent (apiKeyConfigured : Bool)
    (oracle : String → Nat → Except String (List WebSource × Option String))
    (query : String) (maxResults : Nat) : WebSearchResult :=
  if !apiKeyConfigured then
    { results := [], answer := none, query := query, error := some "Missing SEARCH_API_KEY" }
  else
    match oracle query maxResults with
    | .ok (rs, ans) => { results := rs, answer := ans, query := query, error := none }
    | .error e => { results := [], answer := none, query := query, error := some e }

/-! ## Answer synthesizer adapter (`llm_service.py`)

`generate_legal_answer` builds a textual context from the case and web
sources, sends it to the LLM (an oracle from the user message to either
the answer text or a raised exception), then extracts `citations_used`
by substring scanning.  A raised provider error propagates (the Python
handler logs and re-raises).
-/

/-- Context block for one case source (the loop body in
`generate_legal_answer`), with 1-based index `idx`. -/
def caseContextPart (idx : Nat) (c : CaseSource) : String :=
  let s := "\n" ++ toString idx ++ ". " ++ c.case_name
  let s := if c.citation ≠ "" then s ++ " - " ++ c.citation else s
  let s := if c.court ≠ "" then s ++ " (" ++ c.court else s
  let s := if c.year ≠ 0 then s ++ ", " ++ toString c.year else s
  let s := if c.court ≠ "" ∨ c.year ≠ 0 then s ++ ")" else s
  let s := s ++ "\n"
  let s := match c.holding with
    | some h => if h ≠ "" then s ++ "Holding: " ++ h ++ "\n" else s
    | none => s
  let s := match c.facts with
    | some f => if f ≠ "" then s ++ "Facts: " ++ pySlice f 500 ++ "...\n" else s
    | none => s
  let s := match c.reasoning with
    | some r => if r ≠ "" then s ++ "Reasoning: " ++ pySlice r 800 ++ "...\n" else s
    | none => s
  s

/-- Context block for one web source, with 1-based index `idx`.  The
`title` key is always present in the dictionaries built by
`search_legal_content`, so `source.get('title', 'Unknown Source')`
returns it unchanged. -/
def webContextPart (idx : Nat) (w : WebSource) : String :=
  let s := "\n" ++ toString idx ++ ". " ++ w.title
  let s := if w.url ≠ "" then s ++ "\nURL: " ++ w.url else s
  let s := if w.content ≠ "" then s ++ "\nContent: " ++ pySlice w.content 500 ++ "...\n" else s
  s

/-- Join of the context parts (`"".join(context_parts)`): case evidence
first, always; web evidence appended only when the list is present and
non-empty (Python truthiness of `web_sources`). -/
def buildContext (caseSources : List CaseSource) (webSources : Option (List WebSource)) :
    String :=
  let parts := ["RELEVANT CASE LAW:\n"] ++
    ((List.enumFrom 1 caseSources).map fun p => caseContextPart p.1 p.2)
  let parts := match webSources with
    | some ws =>
      if ws ≠ [] then
        parts ++ ["\n\nADDITIONAL WEB SOURCES:\n"] ++
          ((List.enumFrom 1 ws).map fun p => webContextPart p.1 p.2)
      else parts
    | none => parts
  String.join parts

/-- User message sent to the LLM. -/
def userMessage (caseSources : List CaseSource) (webSources : Option (List WebSource))
    (query : String) : String :=
  buildContext caseSources webSources ++ "\n\nQUESTION: " ++ query ++
    "\n\nProvide a comprehensive legal analysis with proper citations."

/-- Citation extraction loop of `generate_legal_answer`: for each case
source, Python first tests `if case.get('citation')` (truthiness), and
only then checks whether the citation or the case name occurs verbatim
in the answer text. -/
def citationsUsed (caseSources : List CaseSource) (answer : String) : List CitationUsed :=
  caseSources.filterMap fun c =>
    if c.citation ≠ "" then
      if pyIn c.citation answer || pyIn c.case_name answer then
        some { case_name := c.case_name, citation := c.citation, case_id := c.case_id }
      else none
    else none

/-- Python `generate_legal_answer`: build the context, call the
provider, extract citations.  A provider error propagates. -/
def generateLegalAnswer (llm : String → Except String String) (query : String)
    (caseSources : List CaseSource) (webSources : Option (List WebSource)) :
    Except String LLMResult :=
  match llm (userMessage caseSources webSources query) with
  | .ok answer =>
    .ok { answer := answer, citations_used := citationsUsed caseSources answer,
          sources_count := caseSources.length }
  | .error e => .error e

/-! ## Reference coverage and augmentation trigger (`search.py`) -/

/-- Abbreviation-expanding normalisation `normalize_name` inside
`case_reference_in_sources`: lowercase, then replace every `"co."` by
`"company"` and every `"corp."` by `"corporation"`. -/
def normalizeName (name : String) : String :=
  String.mk (replaceCorp (replaceCo (name.toList.map lowerChar)))

/-- Python `case_reference_in_sources`: the loop returns on the first
source whose lowercased name or citation contains the lowercased
reference, or whose normalised name contains the normalised
reference. -/
def caseReferenceInSources (reference : String) (sources : List CaseSource) : Bool :=
  sources.any fun source =>
    pyIn (lowerString reference) (lowerString source.case_name) ||
    pyIn (lowerString reference) (lowerString source.citation) ||
    pyIn (normalizeName reference) (normalizeName source.case_name)

/-- Python `max(query_years) if query_years else None`. -/
def maxList : List Nat → Option Nat
  | [] => none
  | x :: xs => some (xs.foldl Nat.max x)

/-- Python `max((c.get("year") or 0) for c in case_sources) if
case_sources else 0` (years are non-negative integers, so `or 0` only
maps a missing or zero year to `0`). -/
def latestCaseYear (caseSources : List CaseSource) : Nat :=
  match caseSources.map (fun c => c.year) with
  | [] => 0
  | x :: xs => xs.foldl Nat.max x

/-- Python `sum(c.get("score", 0) for c in case_sources) /
len(case_sources) if case_sources else 0`, with floats as exact
rationals. -/
def avgScore (caseSources : List CaseSource) : ℚ :=
  match caseSources with
  | [] => 0
  | _ => (caseSources.map (fun c => c.score)).sum / (caseSources.length : ℚ)

/-- Rendering of a score in a reason string, modelling Python
`f"{avg_score:.2f}"` for the scores arising here (ties at the third
decimal are rounded up rather than to even, a sub-percent formatting
detail no claim depends on). -/
def formatScore (q : ℚ) : String :=
  let n : Int := ⌊q * 100 + 1 / 2⌋
  let intPart := n / 100
  let frac := (n % 100).natAbs
  toString intPart ++ "." ++ (if frac < 10 then "0" ++ toString frac else toString frac)

/-- Reason string for the low-confidence trigger. -/
def lowConfidenceReason (avg : ℚ) : String :=
  "Low confidence (" ++ formatScore avg ++ ")"

/-- Reason string for the sparse-evidence trigger. -/
def sparseReason : String := "Fewer than 2 corpus matches"

/-- Reason string for the recency-gap trigger. -/
def recencyReason (requestedYear latestYear : Nat) : String :=
  "Query references " ++ toString requestedYear ++ ", latest corpus year " ++ toString latestYear

/-- Reason string for the missing-reference trigger. -/
def referenceReason (reference : String) : String :=
  "Case \x27" ++ reference ++ "\x27 missing from corpus"

/-- Contribution of `if avg_score < 0.5` to `trigger_reasons`. -/
def reasonLowConfidence (caseSources : List CaseSource) : List String :=
  if avgScore caseSources < 1 / 2 then [lowConfidenceReason (avgScore caseSources)] else []

/-- Contribution of `if len(case_sources) < 2` to `trigger_reasons`. -/
def reasonSparse (caseSources : List CaseSource) : List String :=
  if caseSources.length < 2 then [sparseReason] else []

/-- Contribution of `if recency_gap` to `trigger_reasons`, where
`recency_gap = requested_year and requested_year > latest_case_year`
with `requested_year = max(query_years) if query_years else None`. -/
def reasonRecency (text : String) (caseSources : List CaseSource) : List String :=
  match maxList (extractYears text) with
  | some y =>
    if latestCaseYear caseSources < y then [recencyReason y (latestCaseYear caseSources)]
    else []
  | none => []

/-- Contribution of `if case_reference and not reference_found` to
`trigger_reasons`. -/
def reasonReference (text : String) (caseSources : List CaseSource) : List String :=
  match extractCaseReference text with
  | some r =>
    if !caseReferenceInSources r caseSources then [referenceReason r] else []
  | none => []

/-- Accumulation of `trigger_reasons` in the hybrid branch of
`search_cases`: the four `if` statements append in order, never
short-circuiting.  The query signals (`query_years`, `requested_year`,
`latest_case_year`, `recency_gap`, `case_reference`, `reference_found`)
are computed exactly as in the code just above that branch. -/
def triggerReasons (text : String) (caseSources : List CaseSource) : List String :=
  reasonLowConfidence caseSources ++ reasonSparse caseSources ++
    reasonRecency text caseSources ++ reasonReference text caseSources

/-! ## Orchestrator (`search_cases` endpoint)

The endpoint's collaborators are bundled as `Oracles`; the outcome
records the HTTP result together with observable side effects: how often
the similarity and web oracles were consulted, the `use_web_search`
flag, and the cache writes issued (the `setex` calls).  An
`Except.error` from an oracle models a raised exception; the endpoint's
outer handler converts any such exception into an HTTP 500.
-/

/-- HTTP error raised by the endpoint (`HTTPException`). -/
structure HttpError where
  status : Nat
  detail : String
deriving DecidableEq

/-- Detail string of the no-evidence 404. -/
def noEvidenceDetail : String :=
  "No relevant cases found. Try a different query or check if the database has been seeded with cases."

/-- External collaborators of the endpoint. -/
structure Oracles where
  cacheGet : String → Except String (Option SearchResponse)
  cacheSet : String → SearchResponse → Except String Unit
  vector : String → Int → ℚ → Except String (List VectorHit)
  webKeyConfigured : Bool
  web : String → Nat → Except String (List WebSource × Option String)
  llm : String → Except String String
  db : List CaseRecord

/-- Observable outcome of one request. -/
structure Outcome where
  result : Except HttpError SearchResponse
  vectorCalls : Nat
  webCalls : Nat
  useWebSearch : Bool
  cachePuts : List (String × SearchResponse)
  cachePutResult : Option Bool

/-- Resolution of one vector hit: `case_id` must be truthy (present and
non-zero) and the row lookup `db.query(Case).filter(Case.id ==
case_id).first()` must succeed; otherwise the hit is silently
dropped. -/
def fetchCaseSources (db : List CaseRecord) : List VectorHit → List CaseSource
  | [] => []
  | h :: t =>
    match h.case_id with
    | some cid =>
      if cid ≠ 0 then
        match db.find? (fun c => c.id == cid) with
        | some c =>
          { case_id := c.id, case_name := c.case_name, citation := c.citation,
            court := c.court, year := c.year, facts := c.facts, holding := c.holding,
            reasoning := c.reasoning, score := h.score,
            url := match c.full_text_url with
              | some u => if u = "" then "/api/v1/cases/" ++ toString c.id else u
              | none => "/api/v1/cases/" ++ toString c.id } :: fetchCaseSources db t
        | none => fetchCaseSources db t
      else fetchCaseSources db t
    | none => fetchCaseSources db t

/-- Formatting of one response source (step 5 of the endpoint): the
summary is the first 200 characters of the holding, or `"Summary not
available"` when the holding is missing or empty (Python truthiness of
`case.get("holding")`). -/
def formatSource (c : CaseSource) : SearchResult :=
  { case_name := c.case_name, citation := c.citation, court := c.court, year := c.year,
    summary := match c.holding with
      | some h => if h ≠ "" then pySlice h 200 else "Summary not available"
      | none => "Summary not available",
    relevance_score := c.score, url := c.url }

/-- Steps 4 to 6 of the endpoint: the no-evidence check (`not
case_sources and not web_sources`, where `web_sources` is `None` when no
web fetch ran), synthesis, response formatting, and the best-effort
cache write. -/
def finishPipeline (o : Oracles) (q : SearchQuery) (caseSources : List CaseSource)
    (webSources : Option (List WebSource)) (useWeb : Bool) (webCalls : Nat) : Outcome :=
  if caseSources = [] ∧ (webSources = none ∨ webSources = some []) then
    { result := .error ⟨404, noEvidenceDetail⟩, vectorCalls := 1, webCalls := webCalls,
      useWebSearch := useWeb, cachePuts := [], cachePutResult := none }
  else
    match generateLegalAnswer o.llm q.query caseSources webSources with
    | .error e =>
      { result := .error ⟨500, "Internal server error: " ++ e⟩, vectorCalls := 1,
        webCalls := webCalls, useWebSearch := useWeb, cachePuts := [],
        cachePutResult := none }
    | .ok lr =>
      let response : SearchResponse :=
        { answer := lr.answer, sources := caseSources.map formatSource, mode := q.mode }
      { result := .ok response, vectorCalls := 1, webCalls := webCalls,
        useWebSearch := useWeb, cachePuts := [(generateCacheKey q.query q.mode, response)],
        cachePutResult := some (cacheResponse o.cacheSet q.query response q.mode).1 }

/-- Step 3 of the endpoint: in hybrid mode, evaluate the trigger and, if
any reason fired, fetch web evidence; `web_sources` stays `None`
otherwise.  The synthesis call receives `web_sources if use_web_search
else None`. -/
def afterFetch (o : Oracles) (q : SearchQuery) (caseSources : List CaseSource) : Outcome :=
  if q.mode = "hybrid" ∧ triggerReasons q.query caseSources ≠ [] then
    finishPipeline o q caseSources
      (some (searchLegalContent o.webKeyConfigured o.web q.query 5).results) true 1
  else
    finishPipeline o q caseSources none false 0

/-- Python `search_cases`: cache check, vector search (any raised
exception becomes a 500), resolution, trigger evaluation with optional
web fetch, synthesis, formatting and cache write. -/
def searchCases (o : Oracles) (q : SearchQuery) : Outcome :=
  match (getCachedResponse o.cacheGet q.query q.mode).1 with
  | some r =>
    { result := .ok r, vectorCalls := 0, webCalls := 0, useWebSearch := false,
      cachePuts := [], cachePutResult := none }
  | none =>
    match o.vector q.query q.limit (1 / 2) with
    | .error e =>
      { result := .error ⟨500, "Internal server error: " ++ e⟩, vectorCalls := 1,
        webCalls := 0, useWebSearch := false, cachePuts := [], cachePutResult := none }
    | .ok hits => afterFetch o q (fetchCaseSources o.db hits)

/-! ## Helper lemmas about the pipeline -/

theorem searchCases_miss (o : Oracles) (q : SearchQuery) (hits : List VectorHit)
    (h1 : (getCachedResponse o.cacheGet q.query q.mode).1 = none)
    (h2 : o.vector q.query q.limit (1 / 2) = .ok hits) :
    searchCases o q = afterFetch o q (fetchCaseSources o.db hits) := by
  unfold searchCases
  rw [h1, h2]

theorem searchCases_hit (o : Oracles) (q : SearchQuery) (r : SearchResponse)
    (h : (getCachedResponse o.cacheGet q.query q.mode).1 = some r) :
    searchCases o q =
      { result := .ok r, vectorCalls := 0, webCalls := 0, useWebSearch := false,
        cachePuts := [], cachePutResult := none } := by
  unfold searchCases
  rw [h]

theorem searchCases_vec_error (o : Oracles) (q : SearchQuery) (e : String)
    (h1 : (getCachedResponse o.cacheGet q.query q.mode).1 = none)
    (h2 : o.vector q.query q.limit (1 / 2) = .error e) :
    searchCases o q =
      { result := .error ⟨500, "Internal server error: " ++ e⟩, vectorCalls := 1,
        webCalls := 0, useWebSearch := false, cachePuts := [], cachePutResult := none } := by
  unfold searchCases
  rw [h1, h2]

theorem afterFetch_trigger (o : Oracles) (q : SearchQuery) (cs : List CaseSource)
    (hm : q.mode = "hybrid") (ht : triggerReasons q.query cs ≠ []) :
    afterFetch o q cs =
      finishPipeline o q cs
        (some (searchLegalContent o.webKeyConfigured o.web q.query 5).results) true 1 := by
  unfold afterFetch
  rw [if_pos ⟨hm, ht⟩]

theorem afterFetch_no_trigger (o : Oracles) (q : SearchQuery) (cs : List CaseSource)
    (h : ¬(q.mode = "hybrid" ∧ triggerReasons q.query cs ≠ [])) :
    afterFetch o q cs = finishPipeline o q cs none false 0 := by
  unfold afterFetch
  rw [if_neg h]

theorem finishPipeline_noEvidence (o : Oracles) (q : SearchQuery)
    (webSources : Option (List WebSource)) (useWeb : Bool) (webCalls : Nat)
    (h : webSources = none ∨ webSources = some []) :
    finishPipeline o q [] webSources useWeb webCalls =
      { result := .error ⟨404, noEvidenceDetail⟩, vectorCalls := 1, webCalls := webCalls,
        useWebSearch := useWeb, cachePuts := [], cachePutResult := none } := by
  unfold finishPipeline
  rw [if_pos ⟨rfl, h⟩]

theorem finishPipeline_llm_error (o : Oracles) (q : SearchQuery) (cs : List CaseSource)
    (webSources : Option (List WebSource)) (useWeb : Bool) (webCalls : Nat) (e : String)
    (hguard : ¬(cs = [] ∧ (webSources = none ∨ webSources = some [])))
    (h : generateLegalAnswer o.llm q.query cs webSources = .error e) :
    finishPipeline o q cs webSources useWeb webCalls =
      { result := .error ⟨500, "Internal server error: " ++ e⟩, vectorCalls := 1,
        webCalls := webCalls, useWebSearch := useWeb, cachePuts := [],
        cachePutResult := none } := by
  unfold finishPipeline
  rw [if_neg hguard, h]

theorem finishPipeline_llm_ok (o : Oracles) (q : SearchQuery) (cs : List CaseSource)
    (webSources : Option (List WebSource)) (useWeb : Bool) (webCalls : Nat) (lr : LLMResult)
    (hguard : ¬(cs = [] ∧ (webSources = none ∨ webSources = some [])))
    (h : generateLegalAnswer o.llm q.query cs webSources = .ok lr) :
    finishPipeline o q cs webSources useWeb webCalls =
      { result := .ok { answer := lr.answer, sources := cs.map formatSource, mode := q.mode },
        vectorCalls := 1, webCalls := webCalls, useWebSearch := useWeb,
        cachePuts := [(generateCacheKey q.query q.mode,
          { answer := lr.answer, sources := cs.map formatSource, mode := q.mode })],
        cachePutResult := some (cacheResponse o.cacheSet q.query
          { answer := lr.answer, sources := cs.map formatSource, mode := q.mode } q.mode).1 } := by
  unfold finishPipeline
  rw [if_neg hguard, h]

theorem generateLegalAnswer_ok (llm : String → Except String String) (query : String)
    (cs : List CaseSource) (webSources : Option (List WebSource)) (a : String)
    (h : llm (userMessage cs webSources query) = .ok a) :
    generateLegalAnswer llm query cs webSources =
      .ok { answer := a, citations_used := citationsUsed cs a,
            sources_count := cs.length } := by
  unfold generateLegalAnswer
  rw [h]

theorem generateLegalAnswer_error (llm : String → Except String String) (query : String)
    (cs : List CaseSource) (webSources : Option (List WebSource)) (e : String)
    (h : llm (userMessage cs webSources query) = .error e) :
    generateLegalAnswer llm query cs webSources = .error e := by
  unfold generateLegalAnswer
  rw [h]

theorem triggerReasons_sparse_ne_nil (text : String) (cs : List CaseSource)
    (h : cs.length < 2) : triggerReasons text cs ≠ [] := by
  simp only [triggerReasons, reasonSparse, if_pos h, ne_eq, List.append_eq_nil]
  intro hc
  exact (List.cons_ne_nil _ _) hc.1.1.2

/-! ## Claim C3: reference coverage -/

/-- Evidence item named `"Smith Company v. Jones Corp."`. -/
def smithCompanySource : CaseSource :=
  { case_id := 1, case_name := "Smith Company v. Jones Corp.", citation := "100 U.S. 1",
    court := "Test Court", year := 1900, facts := none, holding := none, reasoning := none,
    score := 1, url := "" }

/-- Evidence item named `"Smith Co. v. Brown"`. -/
def smithBrownSource : CaseSource :=
  { case_id := 2, case_name := "Smith Co. v. Brown", citation := "100 U.S. 2",
    court := "Test Court", year := 1900, facts := none, holding := none, reasoning := none,
    score := 1, url := "" }

/-- Claim C3: the coverage check returns true exactly when the
lowercased reference is a substring of some evidence item's lowercased
case name or lowercased citation, or the abbreviation-expanded reference
is a substring of the same normalisation of the evidence name; and on
the concrete examples, `"Smith Co. v. Jones"` is covered by the evidence
named `"Smith Company v. Jones Corp."` but not by the evidence named
`"Smith Co. v. Brown"`. -/
theorem coverage_iff_substring_claim :
    (∀ (reference : String) (sources : List CaseSource),
      caseReferenceInSources reference sources = true ↔
        ∃ s ∈ sources,
          pyIn (lowerString reference) (lowerString s.case_name) = true ∨
          pyIn (lowerString reference) (lowerString s.citation) = true ∨
          pyIn (normalizeName reference) (normalizeName s.case_name) = true)
  ∧ caseReferenceInSources "Smith Co. v. Jones" [smithCompanySource] = true
  ∧ caseReferenceInSources "Smith Co. v. Jones" [smithBrownSource] = false := by
  refine ⟨fun reference sources => ?_, by decide, by decide⟩
  simp [caseReferenceInSources, List.any_eq_true, Bool.or_eq_true, or_assoc]

/-! ## Claim C4: citation extraction

The claim states the check is performed for every case evidence item.
The code guards each item with `if case.get('citation'):` first, so an
item whose citation is empty is never scanned, even when its case name
occurs verbatim in the answer.
-/

/-- Evidence item with an empty citation whose name appears in the
answer text below. -/
def uncitedMirandaSource : CaseSource :=
  { case_id := 5, case_name := "Miranda v. Arizona", citation := "", court := "Supreme Court",
    year := 1966, facts := none, holding := none, reasoning := none, score := 1, url := "" }

/-- Counterexample to claim C4 as stated: the case name
`"Miranda v. Arizona"` appears verbatim in the answer, so the claim
requires the item in `citations_used`, but the code returns the empty
list because the item's citation string is empty and the
`if case.get('citation')` guard skips it. -/
theorem citations_used_counterexample :
    pyIn uncitedMirandaSource.case_name "See Miranda v. Arizona on this point." = true
  ∧ citationsUsed [uncitedMirandaSource] "See Miranda v. Arizona on this point." = [] := by
  constructor
  · decide
  · decide

/-- Claim C4 as amended: `citations_used` contains exactly those case
evidence items having a non-empty citation whose citation string or case
name appears verbatim as a substring of the answer text, each recorded
with its case name, citation and case id, in evidence order. -/
theorem citations_used_exactly_matching_claim (caseSources : List CaseSource)
    (answer : String) :
    citationsUsed caseSources answer =
      (caseSources.filter fun c =>
          c.citation ≠ "" ∧ (pyIn c.citation answer || pyIn c.case_name answer) = true).map
        fun c => { case_name := c.case_name, citation := c.citation, case_id := c.case_id } := by
  induction caseSources with
  | nil => rfl
  | cons c t ih =>
    simp only [citationsUsed] at ih ⊢
    simp only [List.filterMap_cons, List.filter_cons]
    by_cases h1 : c.citation = "" <;>
      by_cases h2 : (pyIn c.citation answer || pyIn c.case_name answer) = true <;>
        (simp [h1, h2]; simpa using ih)

/-! ## Claim C5: cache backend outage -/

theorem finishPipeline_result_congr (o1 o2 : Oracles) (q : SearchQuery)
    (cs : List CaseSource) (ws : Option (List WebSource)) (uw : Bool) (wc : Nat)
    (hllm : o1.llm = o2.llm) :
    (finishPipeline o1 q cs ws uw wc).result = (finishPipeline o2 q cs ws uw wc).result := by
  unfold finishPipeline
  by_cases h : cs = [] ∧ (ws = none ∨ ws = some [])
  · rw [if_pos h, if_pos h]
  · rw [if_neg h, if_neg h, hllm]
    cases hg : generateLegalAnswer o2.llm q.query cs ws <;> rfl

theorem afterFetch_result_congr (o1 o2 : Oracles) (q : SearchQuery) (cs : List CaseSource)
    (hw : o1.webKeyConfigured = o2.webKeyConfigured) (hweb : o1.web = o2.web)
    (hllm : o1.llm = o2.llm) :
    (afterFetch o1 q cs).result = (afterFetch o2 q cs).result := by
  unfold afterFetch
  by_cases h : q.mode = "hybrid" ∧ triggerReasons q.query cs ≠ []
  · rw [if_pos h, if_pos h, hw, hweb]
    exact finishPipeline_result_congr o1 o2 q cs _ true 1 hllm
  · rw [if_neg h, if_neg h]
    exact finishPipeline_result_congr o1 o2 q cs none false 0 hllm

theorem searchCases_result_congr (o1 o2 : Oracles) (q : SearchQuery)
    (hget : (getCachedResponse o1.cacheGet q.query q.mode).1
      = (getCachedResponse o2.cacheGet q.query q.mode).1)
    (hvec : o1.vector = o2.vector) (hdb : o1.db = o2.db)
    (hw : o1.webKeyConfigured = o2.webKeyConfigured) (hweb : o1.web = o2.web)
    (hllm : o1.llm = o2.llm) :
    (searchCases o1 q).result = (searchCases o2 q).result := by
  unfold searchCases
  rw [hget, hvec, hdb]
  cases hc : (getCachedResponse o2.cacheGet q.query q.mode).1
  · cases hv : o2.vector q.query q.limit (1 / 2)
    · rfl
    · exact afterFetch_result_congr o1 o2 q _ hw hweb hllm
  · rfl

/-- Claim C5: when the cache backend raises, `get_cached_response`
swallows the exception, logs it and reports a miss, and
`cache_response` swallows the exception, logs it and returns `False`;
consequently a request served with a failing cache backend produces the
same result as one served with a silent, always-missing cache — a cache
outage never fails the enclosing request. -/
theorem cache_outage_never_fails_claim (e1 e2 : String) (query mode : String)
    (resp : SearchResponse) (o : Oracles) (q : SearchQuery) :
    getCachedResponse (fun _ => .error e1) query mode
      = (none, ["Error retrieving from cache: " ++ e1])
  ∧ cacheResponse (fun _ _ => .error e2) query resp mode
      = (false, ["Error caching response: " ++ e2])
  ∧ (searchCases { o with cacheGet := fun _ => .error e1,
                          cacheSet := fun _ _ => .error e2 } q).result
      = (searchCases { o with cacheGet := fun _ => .ok none } q).result := by
  refine ⟨rfl, rfl, ?_⟩
  exact searchCases_result_congr _ _ q rfl rfl rfl rfl rfl rfl

/-! ## Shared concrete fixtures for witnesses -/

/-- Baseline oracle bundle: empty corpus, silent cache, unconfigured web
key, failing web provider, constant LLM. -/
def baseOracles : Oracles :=
  { cacheGet := fun _ => .ok none, cacheSet := fun _ _ => .ok (),
    vector := fun _ _ _ => .ok [], webKeyConfigured := false,
    web := fun _ _ => .error "connection error", llm := fun _ => .ok "no answer",
    db := [] }

/-- Concrete corpus row used by several witnesses. -/
def mirandaRecord : CaseRecord :=
  { id := 1, case_name := "Miranda v. Arizona", citation := "384 U.S. 436",
    court := "Supreme Court", year := 1966, facts := some "Custodial interrogation facts.",
    holding := some "Suspects must be informed of their rights.",
    reasoning := some "Fifth Amendment reasoning.", full_text_url := none }

/-! ## Claim C2: no-evidence requests yield the distinct 404 outcome -/

/-- Claim C2: when, after the evidence fetch and the (possibly skipped)
web fetch, both the case evidence list and the web evidence list are
empty, the request terminates with the 404 no-evidence outcome — an
error status distinct from the 500 service failure — and never with a
success response carrying an empty sources list. -/
theorem no_evidence_yields_404_claim (o : Oracles) (q : SearchQuery) (hits : List VectorHit)
    (hmiss : (getCachedResponse o.cacheGet q.query q.mode).1 = none)
    (hvec : o.vector q.query q.limit (1 / 2) = .ok hits)
    (hempty : fetchCaseSources o.db hits = [])
    (hweb : q.mode ≠ "hybrid" ∨
      (searchLegalContent o.webKeyConfigured o.web q.query 5).results = []) :
    (searchCases o q).result = .error ⟨404, noEvidenceDetail⟩
  ∧ (∀ r : SearchResponse, (searchCases o q).result ≠ .ok r) := by
  have hres : (searchCases o q).result = .error ⟨404, noEvidenceDetail⟩ := by
    rw [searchCases_miss o q hits hmiss hvec, hempty]
    by_cases hm : q.mode = "hybrid"
    · have ht : triggerReasons q.query ([] : List CaseSource) ≠ [] :=
        triggerReasons_sparse_ne_nil q.query [] (by simp)
      rw [afterFetch_trigger o q [] hm ht]
      have hwr : (searchLegalContent o.webKeyConfigured o.web q.query 5).results = [] :=
        hweb.resolve_left (by simp [hm])
      rw [hwr, finishPipeline_noEvidence o q (some []) true 1 (Or.inr rfl)]
    · rw [afterFetch_no_trigger o q [] (by simp [hm]),
        finishPipeline_noEvidence o q none false 0 (Or.inl rfl)]
  refine ⟨hres, fun r hr => ?_⟩
  rw [hres] at hr
  exact Except.noConfusion hr

theorem no_evidence_yields_404_witness :
    (searchCases baseOracles { query := "unknown topic" }).result
      = .error ⟨404, noEvidenceDetail⟩ :=
  (no_evidence_yields_404_claim baseOracles { query := "unknown topic" } [] rfl rfl rfl
    (Or.inr rfl)).1

/-! ## Claim C6: synthesis failure is fatal and writes no cache entry -/

/-- Claim C6: when the synthesis provider raises, the request terminates
with the surfaced 500 service error, no `setex` call is issued for the
query and mode, and no fallback answer is produced. -/
theorem synthesis_failure_claim (o : Oracles) (q : SearchQuery) (hits : List VectorHit)
    (e : String)
    (hmiss : (getCachedResponse o.cacheGet q.query q.mode).1 = none)
    (hvec : o.vector q.query q.limit (1 / 2) = .ok hits)
    (hne : fetchCaseSources o.db hits ≠ [])
    (hllm : ∀ s, o.llm s = .error e) :
    (searchCases o q).result = .error ⟨500, "Internal server error: " ++ e⟩
  ∧ (searchCases o q).cachePuts = []
  ∧ (searchCases o q).cachePutResult = none := by
  have hsc : searchCases o q =
      { result := .error ⟨500, "Internal server error: " ++ e⟩, vectorCalls := 1,
        webCalls := if q.mode = "hybrid" ∧ triggerReasons q.query (fetchCaseSources o.db hits) ≠ [] then 1 else 0,
        useWebSearch := q.mode = "hybrid" ∧ triggerReasons q.query (fetchCaseSources o.db hits) ≠ [],
        cachePuts := [], cachePutResult := none } := by
    rw [searchCases_miss o q hits hmiss hvec]
    by_cases hm : q.mode = "hybrid" ∧ triggerReasons q.query (fetchCaseSources o.db hits) ≠ []
    · rw [afterFetch_trigger o q _ hm.1 hm.2,
        finishPipeline_llm_error o q _ _ true 1 e (fun hcon => hne hcon.1)
          (generateLegalAnswer_error o.llm q.query _ _ e (hllm _)), if_pos hm]
      simp [hm]
    · rw [afterFetch_no_trigger o q _ hm,
        finishPipeline_llm_error o q _ none false 0 e (fun hcon => hne hcon.1)
          (generateLegalAnswer_error o.llm q.query _ none e (hllm _)), if_neg hm]
      simp [hm]
  rw [hsc]
  exact ⟨rfl, rfl, rfl⟩

/-- Oracle bundle with one corpus hit and a failing synthesis provider. -/
def synthFailOracles : Oracles :=
  { baseOracles with
    vector := fun _ _ _ => .ok [⟨some 1, 9 / 10⟩],
    llm := fun _ => .error "api down",
    db := [mirandaRecord] }

theorem synthesis_failure_witness :
    (searchCases synthFailOracles { query := "What are Miranda rights?" }).result
      = .error ⟨500, "Internal server error: api down"⟩
  ∧ (searchCases synthFailOracles { query := "What are Miranda rights?" }).cachePuts = [] := by
  have h := synthesis_failure_claim synthFailOracles
    { query := "What are Miranda rights?" } [⟨some 1, 9 / 10⟩] "api down"
    rfl rfl (by decide) (fun _ => rfl)
  exact ⟨h.1, h.2.1⟩

/-! ## Claim C7: web oracle failure degrades, never aborts -/

theorem buildContext_some_nil (cs : List CaseSource) :
    buildContext cs (some []) = buildContext cs none := by
  simp [buildContext]

theorem userMessage_some_nil (cs : List CaseSource) (query : String) :
    userMessage cs (some []) query = userMessage cs none query := by
  simp [userMessage, buildContext_some_nil]

/-- Claim C7: a raised web-oracle error inside `search_legal_content`
degrades to an empty result list with the error recorded; and a request
whose triggered web fetch fails in this way still completes: synthesis
runs on the corpus evidence alone (the context passed to the provider is
the corpus-only context) and the request succeeds. -/
theorem web_failure_degrades_claim :
    (∀ (e query : String) (n : Nat),
      searchLegalContent true (fun _ _ => .error e) query n
        = { results := [], answer := none, query := query, error := some e })
  ∧ (∀ (o : Oracles) (q : SearchQuery) (hits : List VectorHit) (e a : String),
      (getCachedResponse o.cacheGet q.query q.mode).1 = none →
      o.vector q.query q.limit (1 / 2) = .ok hits →
      o.webKeyConfigured = true →
      (∀ s n, o.web s n = .error e) →
      q.mode = "hybrid" →
      triggerReasons q.query (fetchCaseSources o.db hits) ≠ [] →
      fetchCaseSources o.db hits ≠ [] →
      o.llm (userMessage (fetchCaseSources o.db hits) none q.query) = .ok a →
      (searchCases o q).result
        = .ok { answer := a,
                sources := (fetchCaseSources o.db hits).map formatSource,
                mode := q.mode }) := by
  constructor
  · intro e query n
    rfl
  · intro o q hits e a hmiss hvec hkey hweb hm ht hne hllm
    rw [searchCases_miss o q hits hmiss hvec, afterFetch_trigger o q _ hm ht, hkey]
    have hwr : (searchLegalContent true o.web q.query 5).results = [] := by
      unfold searchLegalContent
      rw [hweb]
      rfl
    rw [hwr]
    have hgen : generateLegalAnswer o.llm q.query (fetchCaseSources o.db hits) (some []) =
        .ok { answer := a,
              citations_used := citationsUsed (fetchCaseSources o.db hits) a,
              sources_count := (fetchCaseSources o.db hits).length } :=
      generateLegalAnswer_ok o.llm q.query _ (some []) a
        (by rw [userMessage_some_nil]; exact hllm)
    rw [finishPipeline_llm_ok o q _ (some []) true 1 _ (fun hcon => hne hcon.1) hgen]

/-- Oracle bundle with one low-scoring corpus hit, a configured but
failing web provider, and a healthy LLM. -/
def webFailOracles : Oracles :=
  { baseOracles with
    vector := fun _ _ _ => .ok [⟨some 1, 3 / 10⟩],
    webKeyConfigured := true,
    web := fun _ _ => .error "timeout",
    llm := fun _ => .ok "corpus answer",
    db := [mirandaRecord] }

theorem web_failure_degrades_witness :
    searchLegalContent true (fun _ _ => .error "boom") "q" 5
      = { results := [], answer := none, query := "q", error := some "boom" }
  ∧ (searchCases webFailOracles { query := "recent privacy cases" }).result
      = .ok { answer := "corpus answer",
              sources := (fetchCaseSources webFailOracles.db
                [⟨some 1, 3 / 10⟩]).map formatSource,
              mode := "hybrid" } :=
  ⟨web_failure_degrades_claim.1 "boom" "q" 5,
   web_failure_degrades_claim.2 webFailOracles { query := "recent privacy cases" }
     [⟨some 1, 3 / 10⟩] "timeout" "corpus answer" rfl rfl rfl (fun _ _ => rfl) rfl
     (triggerReasons_sparse_ne_nil "recent privacy cases" _ (by decide))
     (by decide) rfl⟩

/-! ## Claim C8: cache key normalisation -/

theorem map_eq_self_of_forall {α : Type} (f : α → α) (l : List α)
    (h : ∀ a ∈ l, f a = a) : l.map f = l := by
  induction l with
  | nil => rfl
  | cons x t ih =>
    simp only [List.map_cons, h x (by simp)]
    rw [ih (fun a ha => h a (by simp [ha]))]

theorem dropWhile_pyStrip (l : List Char) :
    List.dropWhile isPySpace (pyStrip l) = pyStrip l := by
  obtain ⟨t, hBt⟩ := List.rdropWhile_prefix isPySpace (List.dropWhile isPySpace l)
  cases hB : pyStrip l with
  | nil => simp
  | cons a bs =>
    have hB' : List.rdropWhile isPySpace (List.dropWhile isPySpace l) = a :: bs := hB
    have hA : List.dropWhile isPySpace l = a :: (bs ++ t) := by
      rw [← hBt, hB']
      rfl
    have hne : List.dropWhile isPySpace l ≠ [] := by
      rw [hA]
      exact List.cons_ne_nil _ _
    have hhead := List.head_dropWhile_not isPySpace l hne
    have hpa : ¬ isPySpace a = true := by
      have hh : (List.dropWhile isPySpace l).head hne = a := by
        rw [List.head_eq_iff_head?_eq_some, hA]
        rfl
      rw [hh] at hhead
      simp [hhead]
    rw [List.dropWhile_cons, if_neg hpa]

theorem pyStrip_idem (l : List Char) : pyStrip (pyStrip l) = pyStrip l := by
  show List.rdropWhile isPySpace (List.dropWhile isPySpace (pyStrip l)) = pyStrip l
  rw [dropWhile_pyStrip]
  show List.rdropWhile isPySpace
    (List.rdropWhile isPySpace (List.dropWhile isPySpace l)) = pyStrip l
  rw [List.rdropWhile_idempotent]
  rfl

theorem map_lowerChar_pyStrip (l : List Char) :
    (pyStrip (l.map lowerChar)).map lowerChar = pyStrip (l.map lowerChar) := by
  apply map_eq_self_of_forall
  intro a ha
  have ha1 : a ∈ List.dropWhile isPySpace (l.map lowerChar) :=
    (List.rdropWhile_prefix isPySpace _).subset ha
  have ha2 : a ∈ l.map lowerChar := (List.dropWhile_suffix isPySpace).subset ha1
  obtain ⟨b, _, hb⟩ := List.mem_map.mp ha2
  rw [← hb, lowerChar_idem]

theorem dropWhile_append_all {p : Char → Bool} (u x : List Char)
    (h : ∀ c ∈ u, p c = true) :
    List.dropWhile p (u ++ x) = List.dropWhile p x := by
  induction u with
  | nil => rfl
  | cons c t ih =>
    rw [List.cons_append, List.dropWhile_cons, if_pos (h c (by simp))]
    exact ih (fun a ha => h a (by simp [ha]))

theorem dropWhile_append_ne_nil {p : Char → Bool} (m v : List Char)
    (h : List.dropWhile p m ≠ []) :
    List.dropWhile p (m ++ v) = List.dropWhile p m ++ v := by
  induction m with
  | nil => simp at h
  | cons c t ih =>
    by_cases hc : p c = true
    · rw [List.dropWhile_cons, if_pos hc] at h
      rw [List.cons_append, List.dropWhile_cons, if_pos hc, List.dropWhile_cons, if_pos hc]
      exact ih h
    · rw [List.cons_append, List.dropWhile_cons, if_neg hc, List.dropWhile_cons, if_neg hc,
        List.cons_append]

theorem rdropWhile_append_all {p : Char → Bool} (x v : List Char)
    (h : ∀ c ∈ v, p c = true) :
    List.rdropWhile p (x ++ v) = List.rdropWhile p x := by
  simp only [List.rdropWhile, List.reverse_append]
  rw [dropWhile_append_all v.reverse x.reverse
    (fun c hc => h c (List.mem_reverse.mp hc))]

theorem pyStrip_append_spaces (u m v : List Char)
    (hu : ∀ c ∈ u, isPySpace c = true) (hv : ∀ c ∈ v, isPySpace c = true) :
    pyStrip (u ++ m ++ v) = pyStrip m := by
  unfold pyStrip
  rw [List.append_assoc, dropWhile_append_all u (m ++ v) hu]
  by_cases h : List.dropWhile isPySpace m = []
  · have hm : ∀ c ∈ m, isPySpace c = true := List.dropWhile_eq_nil_iff.mp h
    rw [h, dropWhile_append_all m v hm, List.dropWhile_eq_nil_iff.mpr hv]
  · rw [dropWhile_append_ne_nil m v h, rdropWhile_append_all _ v hv]

theorem normalizeQuery_idem (q : String) :
    normalizeQuery (normalizeQuery q) = normalizeQuery q := by
  unfold normalizeQuery
  have ht : ∀ y : List Char, (String.mk y).toList = y := fun _ => rfl
  rw [ht, map_lowerChar_pyStrip, pyStrip_idem]

/-- Claim C8: cache key normalisation is idempotent; two queries with
the same lowercase form, or differing only by surrounding whitespace,
produce the same cache key for the same mode (so a get under one hits an
entry put under the other); queries differing in internal whitespace or
punctuation produce distinct keys. -/
theorem cache_key_normalization_claim :
    (∀ q : String, normalizeQuery (normalizeQuery q) = normalizeQuery q)
  ∧ (∀ (q1 q2 mode : String), q1.toList.map lowerChar = q2.toList.map lowerChar →
      generateCacheKey q1 mode = generateCacheKey q2 mode)
  ∧ (∀ (q : String) (w1 w2 : List Char) (mode : String),
      (∀ c ∈ w1, isPySpace c = true) → (∀ c ∈ w2, isPySpace c = true) →
      generateCacheKey (String.mk (w1 ++ q.toList ++ w2)) mode = generateCacheKey q mode)
  ∧ (∀ resp : SearchResponse,
      (getCachedResponse
        (fun k => .ok (if k = generateCacheKey "miranda rights" "hybrid" then some resp
          else none))
        "Miranda Rights" "hybrid").1 = some resp)
  ∧ generateCacheKey "miranda  rights" "hybrid" ≠ generateCacheKey "miranda rights" "hybrid"
  ∧ generateCacheKey "miranda, rights" "hybrid" ≠ generateCacheKey "miranda rights" "hybrid" := by
  refine ⟨normalizeQuery_idem, ?_, ?_, ?_, by decide, by decide⟩
  · intro q1 q2 mode h
    unfold generateCacheKey normalizeQuery
    rw [h]
  · intro q w1 w2 mode hw1 hw2
    unfold generateCacheKey normalizeQuery
    have ht : ∀ y : List Char, (String.mk y).toList = y := fun _ => rfl
    rw [ht, List.map_append, List.map_append,
      pyStrip_append_spaces _ _ _
        (by intro c hc
            obtain ⟨b, hb, hbc⟩ := List.mem_map.mp hc
            rw [← hbc, isPySpace_lowerChar]
            exact hw1 b hb)
        (by intro c hc
            obtain ⟨b, hb, hbc⟩ := List.mem_map.mp hc
            rw [← hbc, isPySpace_lowerChar]
            exact hw2 b hb)]
  · intro resp
    have hk : generateCacheKey "Miranda Rights" "hybrid"
        = generateCacheKey "miranda rights" "hybrid" := by decide
    simp [getCachedResponse, hk]

theorem cache_key_normalization_witness :
    generateCacheKey "MIRANDA Rights" "hybrid" = generateCacheKey "miranda rights" "hybrid"
  ∧ generateCacheKey (String.mk (" \t".toList ++ "miranda rights".toList ++ "  ".toList))
      "hybrid" = generateCacheKey "miranda rights" "hybrid"
  ∧ normalizeQuery (normalizeQuery "  Miranda  ") = normalizeQuery "  Miranda  " :=
  ⟨cache_key_normalization_claim.2.1 "MIRANDA Rights" "miranda rights" "hybrid" (by decide),
   cache_key_normalization_claim.2.2.1 "miranda rights" " \t".toList "  ".toList "hybrid"
     (by decide) (by decide),
   cache_key_normalization_claim.1 "  Miranda  "⟩

/-! ## Outcome field lemmas -/

theorem finishPipeline_fields (o : Oracles) (q : SearchQuery) (cs : List CaseSource)
    (ws : Option (List WebSource)) (uw : Bool) (wc : Nat) :
    (finishPipeline o q cs ws uw wc).vectorCalls = 1
  ∧ (finishPipeline o q cs ws uw wc).webCalls = wc
  ∧ (finishPipeline o q cs ws uw wc).useWebSearch = uw := by
  unfold finishPipeline
  split
  · exact ⟨rfl, rfl, rfl⟩
  · split <;> exact ⟨rfl, rfl, rfl⟩

theorem afterFetch_vectorCalls (o : Oracles) (q : SearchQuery) (cs : List CaseSource) :
    (afterFetch o q cs).vectorCalls = 1 := by
  unfold afterFetch
  split <;> exact (finishPipeline_fields o q cs _ _ _).1

/-! ## Claim C9: the data-model invariant is not enforced -/

/-- Invariant stated by the spec data model for `Query`: `limit > 0` and
text non-empty after trimming. -/
def queryInvariant (q : SearchQuery) : Prop :=
  0 < q.limit ∧ pyStrip q.query.toList ≠ []

/-- Query violating the invariant on both counts: blank text and a
non-positive limit. -/
def invalidQuery : SearchQuery := { query := "   ", mode := "corpus_only", limit := 0 }

/-- Counterexample to claim C9 as stated: `SearchQuery` carries no
validators, so a query with blank text and `limit = 0` is accepted and
processed by the pipeline — the similarity oracle is consulted and the
request runs to its normal no-evidence outcome instead of being
rejected. -/
theorem query_invariant_counterexample :
    ¬ queryInvariant invalidQuery
  ∧ (searchCases baseOracles invalidQuery).vectorCalls = 1
  ∧ (searchCases baseOracles invalidQuery).result = .error ⟨404, noEvidenceDetail⟩ := by
  refine ⟨fun h => ?_, rfl, rfl⟩
  exact absurd h.1 (by decide)

/-- Claim C9 as amended: the request model only declares defaults
(`mode = "hybrid"`, `limit = 10`); it enforces no invariant, and every
query — in particular one violating `limit > 0` or blank after trimming
— is accepted into the pipeline and reaches the evidence fetch whenever
the cache misses. -/
theorem query_not_validated_claim :
    (∀ t : String, ({ query := t } : SearchQuery).mode = "hybrid"
      ∧ ({ query := t } : SearchQuery).limit = 10)
  ∧ (∀ (o : Oracles) (q : SearchQuery),
      (getCachedResponse o.cacheGet q.query q.mode).1 = none →
      (searchCases o q).vectorCalls = 1) := by
  refine ⟨fun t => ⟨rfl, rfl⟩, fun o q hmiss => ?_⟩
  unfold searchCases
  rw [hmiss]
  cases hv : o.vector q.query q.limit (1 / 2)
  · rfl
  · exact afterFetch_vectorCalls o q _

theorem query_not_validated_witness :
    ({ query := "abc" } : SearchQuery).limit = 10
  ∧ (searchCases baseOracles { query := "", mode := "corpus_only", limit := -5 }).vectorCalls
      = 1 :=
  ⟨(query_not_validated_claim.1 "abc").2,
   query_not_validated_claim.2 baseOracles { query := "", mode := "corpus_only", limit := -5 }
     rfl⟩

/-! ## Claim C1: the augmentation trigger -/

/-- Spec-side recency-gap predicate: a year was extracted and the
maximum extracted year exceeds the maximum evidence year. -/
def specRecencyGap (text : String) (cs : List CaseSource) : Prop :=
  ∃ y, maxList (extractYears text) = some y ∧ latestCaseYear cs < y

/-- Spec-side missing-reference predicate: a case reference was
extracted and is not covered by the evidence. -/
def specReferenceMissing (text : String) (cs : List CaseSource) : Prop :=
  ∃ r, extractCaseReference text = some r ∧ caseReferenceInSources r cs = false

/-- Trigger decision of the hybrid branch (`if trigger_reasons:`). -/
def webTriggered (text : String) (cs : List CaseSource) : Bool :=
  !(triggerReasons text cs).isEmpty

theorem reasonLowConfidence_eq_nil_iff (cs : List CaseSource) :
    reasonLowConfidence cs = [] ↔ ¬(avgScore cs < 1 / 2) := by
  unfold reasonLowConfidence
  split <;> simp_all

theorem reasonSparse_eq_nil_iff (cs : List CaseSource) :
    reasonSparse cs = [] ↔ ¬(cs.length < 2) := by
  unfold reasonSparse
  split <;> simp_all

theorem reasonRecency_eq_nil_iff (text : String) (cs : List CaseSource) :
    reasonRecency text cs = [] ↔ ¬ specRecencyGap text cs := by
  rcases hm : maxList (extractYears text) with _ | y <;>
    simp [reasonRecency, hm, specRecencyGap]

theorem reasonReference_eq_nil_iff (text : String) (cs : List CaseSource) :
    reasonReference text cs = [] ↔ ¬ specReferenceMissing text cs := by
  rcases hr : extractCaseReference text with _ | r <;>
    simp [reasonReference, hr, specReferenceMissing]

theorem webTriggered_iff (text : String) (cs : List CaseSource) :
    webTriggered text cs = true ↔
      avgScore cs < 1 / 2 ∨ cs.length < 2 ∨ specRecencyGap text cs ∨
        specReferenceMissing text cs := by
  have h0 : webTriggered text cs = true ↔ triggerReasons text cs ≠ [] := by
    unfold webTriggered
    cases h : triggerReasons text cs <;> simp [h]
  rw [h0, Ne, triggerReasons]
  simp only [List.append_eq_nil, reasonLowConfidence_eq_nil_iff, reasonSparse_eq_nil_iff,
    reasonRecency_eq_nil_iff, reasonReference_eq_nil_iff]
  tauto

theorem lowConfidence_reason_mem (text : String) (cs : List CaseSource)
    (h : avgScore cs < 1 / 2) :
    lowConfidenceReason (avgScore cs) ∈ triggerReasons text cs := by
  unfold triggerReasons
  apply List.mem_append_left
  apply List.mem_append_left
  apply List.mem_append_left
  unfold reasonLowConfidence
  rw [if_pos h]
  exact List.mem_singleton_self _

theorem sparse_reason_mem (text : String) (cs : List CaseSource)
    (h : cs.length < 2) : sparseReason ∈ triggerReasons text cs := by
  unfold triggerReasons
  apply List.mem_append_left
  apply List.mem_append_left
  apply List.mem_append_right
  unfold reasonSparse
  rw [if_pos h]
  exact List.mem_singleton_self _

theorem recency_reason_mem (text : String) (cs : List CaseSource) (y : Nat)
    (hy : maxList (extractYears text) = some y) (hgt : latestCaseYear cs < y) :
    recencyReason y (latestCaseYear cs) ∈ triggerReasons text cs := by
  unfold triggerReasons
  apply List.mem_append_left
  apply List.mem_append_right
  simp [reasonRecency, hy, hgt]

theorem reference_reason_mem (text : String) (cs : List CaseSource) (r : String)
    (hr : extractCaseReference text = some r)
    (hmiss : caseReferenceInSources r cs = false) :
    referenceReason r ∈ triggerReasons text cs := by
  unfold triggerReasons
  apply List.mem_append_right
  simp [reasonReference, hr, hmiss]

/-- Claim C1: in hybrid mode the web augmentation triggers exactly when
low confidence, sparsity, a recency gap or a missing reference holds;
every true predicate contributes its reason string, none being
short-circuited; the pipeline's `use_web_search` flag equals this
decision; and in corpus-only mode the trigger is false and the web
oracle is never consulted. -/
theorem trigger_evaluator_claim :
    (∀ (text : String) (cs : List CaseSource),
      (webTriggered text cs = true ↔
        avgScore cs < 1 / 2 ∨ cs.length < 2 ∨ specRecencyGap text cs ∨
          specReferenceMissing text cs)
      ∧ (avgScore cs < 1 / 2 → lowConfidenceReason (avgScore cs) ∈ triggerReasons text cs)
      ∧ (cs.length < 2 → sparseReason ∈ triggerReasons text cs)
      ∧ (∀ y, maxList (extractYears text) = some y → latestCaseYear cs < y →
          recencyReason y (latestCaseYear cs) ∈ triggerReasons text cs)
      ∧ (∀ r, extractCaseReference text = some r → caseReferenceInSources r cs = false →
          referenceReason r ∈ triggerReasons text cs))
  ∧ (∀ (o : Oracles) (q : SearchQuery) (hits : List VectorHit),
      q.mode = "hybrid" →
      (getCachedResponse o.cacheGet q.query q.mode).1 = none →
      o.vector q.query q.limit (1 / 2) = .ok hits →
      (searchCases o q).useWebSearch = webTriggered q.query (fetchCaseSources o.db hits))
  ∧ (∀ (o : Oracles) (q : SearchQuery), q.mode = "corpus_only" →
      (searchCases o q).useWebSearch = false ∧ (searchCases o q).webCalls = 0) := by
  refine ⟨fun text cs => ⟨webTriggered_iff text cs, lowConfidence_reason_mem text cs,
    sparse_reason_mem text cs, recency_reason_mem text cs, reference_reason_mem text cs⟩,
    ?_, ?_⟩
  · intro o q hits hm hmiss hvec
    rw [searchCases_miss o q hits hmiss hvec]
    unfold afterFetch
    by_cases ht : triggerReasons q.query (fetchCaseSources o.db hits) ≠ []
    · rw [if_pos ⟨hm, ht⟩, (finishPipeline_fields o q _ _ true 1).2.2]
      unfold webTriggered
      cases hcase : triggerReasons q.query (fetchCaseSources o.db hits)
      · exact absurd hcase ht
      · rfl
    · rw [if_neg (fun hcon => ht hcon.2), (finishPipeline_fields o q _ none false 0).2.2]
      have he : triggerReasons q.query (fetchCaseSources o.db hits) = [] := not_not.mp ht
      unfold webTriggered
      rw [he]
      rfl
  · intro o q hmode
    cases hc : (getCachedResponse o.cacheGet q.query q.mode).1 with
    | some r =>
      rw [searchCases_hit o q r hc]
      exact ⟨rfl, rfl⟩
    | none =>
      cases hv : o.vector q.query q.limit (1 / 2) with
      | error e =>
        rw [searchCases_vec_error o q e hc hv]
        exact ⟨rfl, rfl⟩
      | ok hits =>
        rw [searchCases_miss o q hits hc hv,
          afterFetch_no_trigger o q _
            (fun hcon => by rw [hmode] at hcon; exact absurd hcon.1 (by decide))]
        exact ⟨(finishPipeline_fields o q _ none false 0).2.2,
          (finishPipeline_fields o q _ none false 0).2.1⟩

theorem trigger_evaluator_witness :
    webTriggered "Brown v. Board status in 2024" [] = true
  ∧ sparseReason ∈ triggerReasons "Brown v. Board status in 2024" []
  ∧ (searchCases baseOracles { query := "q", mode := "corpus_only" }).useWebSearch = false
  ∧ (searchCases baseOracles { query := "q", mode := "corpus_only" }).webCalls = 0 := by
  have h1 := (trigger_evaluator_claim.1 "Brown v. Board status in 2024" []).1
  have h2 := (trigger_evaluator_claim.1 "Brown v. Board status in 2024" []).2.2.1 (by decide)
  have h3 := trigger_evaluator_claim.2.2 baseOracles { query := "q", mode := "corpus_only" }
    rfl
  exact ⟨h1.mpr (Or.inr (Or.inl (by decide))), h2, h3.1, h3.2⟩

/-! ## Claim C10: response sources are exactly the corpus evidence -/

theorem afterFetch_ok_sources (o : Oracles) (q : SearchQuery) (cs : List CaseSource)
    (r : SearchResponse) (h : (afterFetch o q cs).result = .ok r) :
    r.sources = cs.map formatSource ∧ r.mode = q.mode := by
  unfold afterFetch finishPipeline at h
  split at h <;>
    (first
      | (split at h
         · simp at h
         · split at h
           · simp at h
           · simp only [Except.ok.injEq] at h
             subst h
             exact ⟨rfl, rfl⟩))

/-- Claim C10: every successful non-cached response carries exactly the
resolved corpus evidence, in similarity-oracle order, as its sources;
each source's summary is the first 200 characters of the holding or
`"Summary not available"` when the holding is missing or empty; web
evidence never enters `sources`, so a hybrid request grounded only in
web evidence succeeds with an empty sources list and the synthesized
answer. -/
theorem sources_exactly_corpus_claim :
    (∀ (o : Oracles) (q : SearchQuery) (hits : List VectorHit) (r : SearchResponse),
      (getCachedResponse o.cacheGet q.query q.mode).1 = none →
      o.vector q.query q.limit (1 / 2) = .ok hits →
      (searchCases o q).result = .ok r →
      r.sources = (fetchCaseSources o.db hits).map formatSource ∧ r.mode = q.mode)
  ∧ (∀ c : CaseSource, (formatSource c).summary =
      if c.holding = none ∨ c.holding = some "" then "Summary not available"
      else pySlice (c.holding.getD "") 200)
  ∧ (∀ (o : Oracles) (q : SearchQuery) (hits : List VectorHit) (a : String),
      (getCachedResponse o.cacheGet q.query q.mode).1 = none →
      o.vector q.query q.limit (1 / 2) = .ok hits →
      fetchCaseSources o.db hits = [] →
      q.mode = "hybrid" →
      (searchLegalContent o.webKeyConfigured o.web q.query 5).results ≠ [] →
      o.llm (userMessage []
        (some (searchLegalContent o.webKeyConfigured o.web q.query 5).results) q.query)
        = .ok a →
      (searchCases o q).result = .ok { answer := a, sources := [], mode := q.mode }) := by
  refine ⟨?_, ?_, ?_⟩
  · intro o q hits r hmiss hvec hok
    rw [searchCases_miss o q hits hmiss hvec] at hok
    exact afterFetch_ok_sources o q _ r hok
  · intro c
    rcases hh : c.holding with _ | h
    · simp [formatSource, hh]
    · by_cases he : h = "" <;> simp [formatSource, hh, he]
  · intro o q hits a hmiss hvec hempty hm hws hllm
    rw [searchCases_miss o q hits hmiss hvec, hempty]
    have ht : triggerReasons q.query ([] : List CaseSource) ≠ [] :=
      triggerReasons_sparse_ne_nil q.query [] (by simp)
    rw [afterFetch_trigger o q [] hm ht]
    have hgen := generateLegalAnswer_ok o.llm q.query []
      (some (searchLegalContent o.webKeyConfigured o.web q.query 5).results) a hllm
    rw [finishPipeline_llm_ok o q [] _ true 1 _
      (by
        intro hcon
        rcases hcon.2 with hn | hs
        · exact Option.noConfusion hn
        · injection hs with hs'
          exact hws hs')
      hgen]
    rfl

/-- Sample web evidence item. -/
def sampleWebSource : WebSource :=
  { title := "Web source", url := "http://w", content := "c", score := 1 / 2,
    published_date := none }

/-- Oracle bundle returning no corpus hits but one web result. -/
def webOnlyOracles : Oracles :=
  { baseOracles with
    webKeyConfigured := true,
    web := fun _ _ => .ok ([sampleWebSource], none),
    llm := fun _ => .ok "web grounded answer" }

theorem sources_exactly_corpus_witness :
    (searchCases webOnlyOracles { query := "novel question" }).result
      = .ok { answer := "web grounded answer", sources := [], mode := "hybrid" }
  ∧ (formatSource smithBrownSource).summary = "Summary not available" := by
  have h3 := sources_exactly_corpus_claim.2.2 webOnlyOracles { query := "novel question" }
    [] "web grounded answer" rfl rfl rfl rfl (by decide) rfl
  refine ⟨h3, ?_⟩
  rw [sources_exactly_corpus_claim.2.1 smithBrownSource]
  decide

end CaselawSearch
